import Mathlib

/-!
Formal model of the planning-poker session/round orchestration engine
(`src/Round.js` and the `Session` class revision bundled with it, which is
the revision instantiated by `src/index.js` via `new Session(bot, room,
moderator)` and the one carrying the `vote`/`skip`/`pass` commands).

Modelling conventions:
* JavaScript numbers are modelled as exact rationals plus a distinguished
  `NaN` value (`JsNum`); IEEE rounding is abstracted away.
* Promises are modelled by their settled outcomes: `Option` for "resolved
  yet or not", `Except JsError` for "fulfilled or rejected".
* Wall-clock data (`moment()` timestamps, durations) is elided except for
  the boolean fact that `end()` has stamped an end time (`ended`).
* The `Prompt` collaborator from `@teamwork/tw-chat` is external to the
  repository; it is modelled at its interface boundary: a cancellable
  pending request that resolves to a number, rejects on cancellation, and
  can be finalized with a value.
-/

namespace PlanningPoker

/-- A JavaScript number: either an actual (finite) numeric value or `NaN`. -/
inductive JsNum where
  | num (q : ℚ)
  | nan
  deriving DecidableEq, Repr

/-- The error values thrown/rejected in the source: `TypeError` (calling a
non-function / reading a property of `undefined`), bluebird's
`CancellationError` (with its message), and a generic `Error` with a
message. -/
inductive JsError where
  | typeError
  | cancellation (msg : String)
  | error (msg : String)
  deriving DecidableEq, Repr

/-- A chat person, at the interface boundary used by the core: identity is
object identity in JS; here a person is identified by the pair of fields
the core reads (`handle`, `firstName`). -/
structure Person where
  handle : String
  firstName : String
  deriving DecidableEq, Repr

/-- The task fields a `Round` is constructed with in `Session.plan`. -/
structure Task where
  id : ℕ
  title : String
  link : String
  deriving DecidableEq, Repr

/-- State of one per-participant estimate request (`Prompt` collaborator):
pending, resolved with a numeric estimate, or cancelled. -/
inductive PromptStatus where
  | pending
  | resolved (value : ℚ)
  | cancelled
  deriving DecidableEq, Repr

/-- One per-participant estimate request, as created in
`Round.getAllEstimates`. -/
structure Prompt where
  person : Person
  status : PromptStatus
  deriving DecidableEq, Repr

/-- `prompt.isPending()`: the request has not yet resolved nor been
cancelled. -/
def Prompt.isPending (p : Prompt) : Bool :=
  match p.status with
  | .pending => true
  | _ => false

/-- `prompt.cancel()` (collaborator interface): cooperative cancellation of
a still-pending request; settled requests are unaffected. -/
def Prompt.cancel (p : Prompt) : Prompt :=
  if p.isPending then { p with status := .cancelled } else p

/-- `prompt.finalize(value)` (collaborator interface): resolve the request
with the given value, as done by `Session.vote`. -/
def Prompt.finalize (p : Prompt) (v : ℚ) : Prompt :=
  { p with status := .resolved v }

/-- The mutable state of `Round` (`src/Round.js`): its task, the `prompts`
array, whether `this.reject` currently holds a callable rejection callback
(it is `undefined` before `getAllEstimates` runs and set to `null` by
`cancelAllEstimates`), the finalized `value`, and whether `end()` stamped
an end time. -/
structure Round where
  task : Task
  prompts : List Prompt
  rejectInstalled : Bool
  value : Option ℚ
  ended : Bool
  deriving DecidableEq, Repr

/-- `new Round(session, task)`: `this.prompts = []`; `this.reject` and
`this.value` are unset. -/
def Round.new (task : Task) : Round :=
  { task := task, prompts := [], rejectInstalled := false, value := none, ended := false }

/-- `Round.end()`: stamps `this.endTime = moment()`. -/
def Round.endRound (r : Round) : Round :=
  { r with ended := true }

/-- lodash `meanBy(array)` with the identity iteratee: `NaN` for an empty
array (lodash returns the constant `NAN` when `length` is `0`), otherwise
the sum divided by the length. -/
def meanBy (l : List ℚ) : JsNum :=
  match l with
  | [] => .nan
  | _ => .num (l.sum / (l.length : ℚ))

/-- The settled-state of the `Promise.all` barrier in
`Round.getAllEstimates`: it is fulfilled (with the list of estimate
values, in participant order) exactly when every per-participant request
has resolved; while any request is outstanding it is `none`. -/
def collectResponses (participants : List Person) (responses : Person → Option ℚ) :
    Option (List ℚ) :=
  match participants with
  | [] => some []
  | p :: rest =>
    match responses p, collectResponses rest responses with
    | some v, some vs => some (v :: vs)
    | _, _ => none

/-- The object returned by `Round.execute()` on normal completion: the
`estimates` field is `this.prompts` (by then each resolved with its
value) and `average` is `meanBy(estimates-values)`. Timestamp fields are
elided. -/
structure RoundResult where
  estimates : List Prompt
  average : JsNum
  deriving DecidableEq, Repr

/-- `Round.execute()` restricted to the non-cancelled path, as a function
of which participants have responded with what: it resolves (is `some`)
exactly when the `Promise.all` barrier over all issued requests has
fulfilled, and then returns the prompts (each resolved) as `estimates`
together with `meanBy` of the values. -/
def Round.executeResult (participants : List Person) (responses : Person → Option ℚ) :
    Option RoundResult :=
  match collectResponses participants responses with
  | none => none
  | some vals =>
    some { estimates := (participants.zip vals).map
             (fun pv => { person := pv.1, status := .resolved pv.2 }),
           average := meanBy vals }

/-- What `Round.cancelAllEstimates()` produces when it succeeds: the
round afterwards (`prompts` cleared, rejection callback nulled), the
error value passed to `this.reject` (the signal the in-flight `execute()`
rejects with), and the prompt objects after the `prompt.cancel()` pass. -/
structure CancelEffects where
  round : Round
  signal : JsError
  cancelledPrompts : List Prompt
  deriving DecidableEq, Repr

/-- `Round.cancelAllEstimates()`: invokes `this.reject(new
CancellationError("Estimation cancelled."))` — a `TypeError` if
`this.reject` is `null`/`undefined` — then nulls `this.reject`, cancels
every prompt and clears `this.prompts`. -/
def Round.cancelAllEstimates (r : Round) : Except JsError CancelEffects :=
  if r.rejectInstalled then
    .ok { round := { r with rejectInstalled := false, prompts := [] },
          signal := .cancellation "Estimation cancelled.",
          cancelledPrompts := r.prompts.map Prompt.cancel }
  else
    .error .typeError

/-- `round.getEstimatingUsers()`: the people whose prompt is still
pending. -/
def Round.getEstimatingUsers (r : Round) : List Person :=
  (r.prompts.filter Prompt.isPending).map Prompt.person

/-- `Round.finalize(value)`: unconditionally assigns `this.value = value`
and calls `this.end()`. The method body cannot throw, so the result is
always `ok`. -/
def Round.finalize (r : Round) (v : ℚ) : Except JsError Round :=
  .ok { r with value := some v, ended := true }

/-- The settled outcome of the promise returned by `Round.execute()`:
if `cancelAllEstimates` fired `this.reject` with a signal, the promise
is rejected with that signal (the `await` in `execute` re-throws it);
otherwise it fulfills exactly when the barrier fulfills. -/
def Round.executeOutcome (participants : List Person) (responses : Person → Option ℚ)
    (cancelSignal : Option JsError) : Option (Except JsError RoundResult) :=
  match cancelSignal with
  | some e => some (.error e)
  | none => (Round.executeResult participants responses).map .ok

/-- What one iteration of the `while` loop in `Session.start` does with
the outcome of `this.currentRound.execute()`. -/
inductive StepAction where
  | completedRound (res : RoundResult)
  | continueLoop
  | fatal (e : JsError)
  deriving DecidableEq, Repr

/-- The `try`/`catch` around `await this.currentRound.execute()` in
`Session.start`: a fulfilled round proceeds to the result handling; a
rejection that is `instanceof CancellationError` hits `continue`; any
other rejection is re-thrown out of the loop. -/
def startLoopStep (outcome : Except JsError RoundResult) : StepAction :=
  match outcome with
  | .ok res => .completedRound res
  | .error (.cancellation _) => .continueLoop
  | .error e => .fatal e

/-- Whether a step action aborts the `Session.start` loop. -/
def StepAction.isFatal : StepAction → Bool
  | .fatal _ => true
  | _ => false

/-- The rounds on which `Session.start`'s `while(this.currentRound =
this.rounds.shift())` loop calls `execute()`, in order, given each
round's outcome, together with the fatal error (if any) that aborted the
loop. Both `continue` (cancellation) and normal completion move on to
the next queued round. -/
def startLoopAttempts (queue : List Round) (exec : Round → Except JsError RoundResult) :
    List Round × Option JsError :=
  match queue with
  | [] => ([], none)
  | r :: rest =>
    match startLoopStep (exec r) with
    | .fatal e => ([r], some e)
    | _ =>
      let tail := startLoopAttempts rest exec
      (r :: tail.1, tail.2)

/-- The mutable state of the `Session` class (revision bundled in
`src/Round.js`, the one created by `src/index.js`): the `planning` and
`completed` flags, the pending-round queue `rounds` (consumed by
`start`'s `shift()` loop), the `completedRounds` and `skippedRounds`
arrays, the `currentRound` reference, and the moderator. Chat-transport
collaborators (`room`, `admin`) are elided. -/
structure Session where
  planning : Bool
  completed : Bool
  rounds : List Round
  completedRounds : List Round
  skippedRounds : List Round
  currentRound : Option Round
  moderator : Person
  deriving DecidableEq, Repr

/-- `prompt.finalize(estimate)` applied to the prompt found by
`this.currentRound.prompts.find(...)` in `Session.vote`: `find` returns
the first prompt whose `person` matches, and only that prompt object is
finalized. -/
def finalizeFirstPrompt : List Prompt → Person → ℚ → List Prompt
  | [], _, _ => []
  | p :: rest, person, v =>
    if p.person = person then Prompt.finalize p v :: rest
    else p :: finalizeFirstPrompt rest person v

/-- `Session.vote(person, estimate)`: throws when `planning` is falsy;
otherwise looks up the person's prompt in the current round. When `find`
yields no prompt (`undefined`), the subsequent `prompt.isPending()`
property access raises a `TypeError`; a found pending prompt is resolved
with the estimate; a found settled prompt throws `"Already voted!"`.
(When `planning` is true `currentRound` may in principle be unset; the
property access `this.currentRound.prompts` then also raises a
`TypeError`.) -/
def Session.vote (s : Session) (person : Person) (estimate : ℚ) :
    Except JsError Session :=
  if s.planning = false then
    .error (.error "There is not task to vote on!")
  else
    match s.currentRound with
    | none => .error .typeError
    | some r =>
      match r.prompts.find? (fun p => p.person == person) with
      | none => .error .typeError
      | some p =>
        if p.isPending then
          let voted : Round := { r with prompts := finalizeFirstPrompt r.prompts person estimate }
          .ok { s with currentRound := some voted }
        else
          .error (.error "Already voted!")

/-- `Session.plan(installation, tasklist)` with the remote tasklist fetch
abstracted into the `tasks` argument: the state guard `if
(this.rounds.length || this.planning) throw ...` runs before anything
else (in particular before the fetch, so the rejection is independent of
the arguments); an empty fetched task list throws; otherwise one pending
`Round` is built per task in source order. -/
def Session.plan (s : Session) (tasks : List Task) : Except JsError Session :=
  if s.rounds.length ≠ 0 ∨ s.planning = true then
    .error (.error "Cannot plan another tasklist when we're already planning!")
  else if tasks.length = 0 then
    .error (.error "Your tasklist doesn't seem to have any tasks!")
  else
    .ok { s with rounds := tasks.map Round.new }

/-- `Session.skip()`: throws when `planning` is falsy; otherwise calls
`this.currentRound.cancelAllEstimates()` (whose `TypeError`, if any,
propagates) and pushes the current round — the same mutated object — onto
`skippedRounds`. -/
def Session.skip (s : Session) : Except JsError Session :=
  if s.planning = false then
    .error (.error "There is no task to skip!")
  else
    match s.currentRound with
    | none => .error .typeError
    | some r =>
      match r.cancelAllEstimates with
      | .error e => .error e
      | .ok c => .ok { s with currentRound := some c.round,
                              skippedRounds := s.skippedRounds ++ [c.round] }

/-- `Session.pass()`: throws when `planning` is falsy; otherwise calls
`this.currentRound.cancelAllEstimates()` (whose `TypeError`, if any,
propagates) and pushes the current round — the same mutated object — onto
the tail of the pending queue `this.rounds`. -/
def Session.pass (s : Session) : Except JsError Session :=
  if s.planning = false then
    .error (.error "There is no task to pass!")
  else
    match s.currentRound with
    | none => .error .typeError
    | some r =>
      match r.cancelAllEstimates with
      | .error e => .error e
      | .ok c => .ok { s with currentRound := some c.round,
                              rounds := s.rounds ++ [c.round] }

/-- `Session.status()`: builds the message lines exactly as the source
does — moderator line; `completedRounds.length of rounds.length tasks
estimated` (note: `this.rounds` is the pending queue); when `planning`,
the current task line (a `TypeError` if `currentRound` is unset) and,
only when someone is still pending, the still-estimating line; when
`completed`, a completion line. The method only reads state and sends
one message. The individual lines are split out as the defs below. -/
def lineModerator (s : Session) : String :=
  ":wolf: " ++ s.moderator.firstName ++ " is the moderator."

/-- The second `status` line: `this.completedRounds.length` of
`this.rounds.length` (the remaining pending queue) tasks estimated. -/
def lineCount (s : Session) : String :=
  ":white_check_mark: " ++ toString s.completedRounds.length ++ " of " ++
    toString s.rounds.length ++ " tasks estimated."

/-- The current-task `status` line. -/
def lineTask (r : Round) : String :=
  ":microphone: Current task: [" ++ r.task.title ++ "](" ++ r.task.link ++ ")"

/-- The still-estimating `status` line: the handles of
`getEstimatingUsers()`, comma-joined. -/
def lineEstimating (r : Round) : String :=
  ":hourglass_flowing_sand: " ++
    String.intercalate ", " (r.getEstimatingUsers.map (fun p => "@" ++ p.handle)) ++
    " are still estimating."

/-- The completion `status` line. -/
def lineComplete : String := ":shipit: Sprint planning complete."

def Session.status (s : Session) : Except JsError (List String) :=
  let base := [lineModerator s, lineCount s]
  let tailPart := if s.completed then [lineComplete] else []
  if s.planning then
    match s.currentRound with
    | none => .error .typeError
    | some r =>
      let withTask := base ++ [lineTask r]
      let withEstimating :=
        if r.getEstimatingUsers.length ≠ 0 then withTask ++ [lineEstimating r]
        else withTask
      .ok (withEstimating ++ tailPart)
  else
    .ok (base ++ tailPart)

/-- The number of rounds the session holds across all the places a round
can live (pending queue, current slot, completed, skipped): the session's
total round count. -/
def Session.totalRounds (s : Session) : ℕ :=
  s.completedRounds.length + s.skippedRounds.length + s.rounds.length +
    (match s.currentRound with | some _ => 1 | none => 0)

/-- The alternation list of the command-recognition regex
`mentionCommands` built in the `Session` constructor:
`(help|start|skip|pass|vote|plan|estimate|status|add)`. -/
def mentionCommandNames : List String :=
  ["help", "start", "skip", "pass", "vote", "plan", "estimate", "status", "add"]

/-- The method names defined on the `Session` class (the callable
properties `this[command]` can resolve to). There is no `add` method. -/
def sessionMethodNames : List String :=
  ["handleAddedPerson", "handleRemovedPerson", "init", "handleMention",
   "handleDirectMessage", "start", "plan", "estimate", "vote", "nextRound",
   "skip", "pass", "help", "status", "broadcast", "broadcastDirect",
   "broadcastError", "broadcastAll", "formatDirectWelcomeMessage"]

/-- Where `Session.handleMention` hands control for one recognized or
unrecognized command: either control is dispatched to a named handler
method (with the session state it runs on), or the `catch` wrapper
converts a thrown error into a `broadcastError` reply, leaving the state
it carries untouched. -/
inductive MentionStep where
  | dispatched (methodName : String) (state : Session)
  | errorReply (e : JsError) (state : Session)
  deriving DecidableEq, Repr

/-- The routing skeleton of `Session.handleMention` for a message whose
regex capture produced `command`: unrecognized text yields the
"I don't understand" reply; the `switch` dispatches `plan`, `vote` and
`estimate` explicitly; everything else goes through the dynamic
`this[command]()`, which raises a `TypeError` (caught by the `.catch`,
which replies with the error and mutates nothing) when no such method
exists. -/
def Session.handleMentionStep (s : Session) (command : String) : MentionStep :=
  if mentionCommandNames.contains command then
    match command with
    | "plan" => .dispatched "plan" s
    | "vote" => .dispatched "vote" s
    | "estimate" => .dispatched "estimate" s
    | _ =>
      if sessionMethodNames.contains command then .dispatched command s
      else .errorReply .typeError s
  else
    .errorReply (.error "I don't understand your input.") s

/-! Concrete data used by witnesses and counterexamples. -/

/-- A concrete participant. -/
def aliceP : Person := { handle := "alice", firstName := "Alice" }

/-- A concrete participant. -/
def bobP : Person := { handle := "bob", firstName := "Bob" }

/-- A concrete moderator. -/
def maudP : Person := { handle := "maud", firstName := "Maud" }

/-- A concrete task. -/
def task1 : Task :=
  { id := 1, title := "Implement login",
    link := "https://x.teamwork.com/index.cfm#tasks/1" }

/-- A second concrete task. -/
def task2 : Task :=
  { id := 2, title := "Fix signup",
    link := "https://x.teamwork.com/index.cfm#tasks/2" }

/-- A third concrete task. -/
def task3 : Task :=
  { id := 3, title := "Ship release",
    link := "https://x.teamwork.com/index.cfm#tasks/3" }

/-- Concrete responses: alice estimates 3, everyone else 5. -/
def respAB : Person → Option ℚ :=
  fun p => if p = aliceP then some 3 else some 5

/-! Helper lemmas about the `Promise.all` barrier. -/

/-- When the barrier has fulfilled, the value list has one entry per
participant. -/
theorem collectResponses_length {ps : List Person} {resp : Person → Option ℚ}
    {vs : List ℚ} (h : collectResponses ps resp = some vs) :
    vs.length = ps.length := by
  induction ps generalizing vs with
  | nil =>
    simp only [collectResponses, Option.some.injEq] at h
    subst h; rfl
  | cons p rest ih =>
    rw [collectResponses] at h
    cases hr : resp p with
    | none => rw [hr] at h; cases h
    | some v =>
      rw [hr] at h
      cases hc : collectResponses rest resp with
      | none => rw [hc] at h; cases h
      | some ws =>
        rw [hc] at h
        cases h
        simp [ih hc]

/-- When the barrier has fulfilled, every participant's request has
resolved. -/
theorem collectResponses_resolved {ps : List Person} {resp : Person → Option ℚ}
    {vs : List ℚ} (h : collectResponses ps resp = some vs) :
    ∀ p, p ∈ ps → (resp p).isSome = true := by
  induction ps generalizing vs with
  | nil => intro p hp; cases hp
  | cons q rest ih =>
    rw [collectResponses] at h
    cases hr : resp q with
    | none => rw [hr] at h; cases h
    | some v =>
      rw [hr] at h
      cases hc : collectResponses rest resp with
      | none => rw [hc] at h; cases h
      | some ws =>
        intro p hp
        cases hp with
        | head => simp [hr]
        | tail _ hmem => exact ih hc p hmem

/-! The claims. -/

/-- Claim C1, counterexample: a round whose participant list is empty
resolves, and its `average` field is the numeric `NaN` value — the code
emits `meanBy([])`, which is `NaN`, rather than signalling that no
estimates exist. -/
theorem round_execute_average_nan_counterexample :
    (Round.executeResult [] respAB).map RoundResult.average = some JsNum.nan := rfl

/-- Claim C1 (amended): in every result of `Round.execute()`, `average`
equals the arithmetic mean of the submitted estimate values when at
least one estimate was collected; when the collected estimate sequence
is empty the `average` field is the numeric value `NaN` (no explicit
"no data" signal is produced). -/
theorem round_execute_average_mean (ps : List Person) (resp : Person → Option ℚ)
    (vs : List ℚ) (h : collectResponses ps resp = some vs) :
    (Round.executeResult ps resp).map RoundResult.average =
      some (if vs = [] then JsNum.nan else JsNum.num (vs.sum / (vs.length : ℚ))) := by
  unfold Round.executeResult
  rw [h]
  cases vs with
  | nil => simp [meanBy]
  | cons v rest => simp [meanBy]

/-- Witness for the amended C1 theorem: alice estimates 3, bob estimates
5; the average reported is their arithmetic mean, 4. -/
theorem round_execute_average_mean_witness :
    (Round.executeResult [aliceP, bobP] respAB).map RoundResult.average =
      some (if ([3, 5] : List ℚ) = [] then JsNum.nan
            else JsNum.num (([3, 5] : List ℚ).sum / ((([3, 5] : List ℚ).length : ℕ) : ℚ))) :=
  round_execute_average_mean [aliceP, bobP] respAB [3, 5] (by decide)

/-- The concrete result of the round where alice estimates 3 and bob 5. -/
def resultAB : RoundResult :=
  { estimates := [{ person := aliceP, status := .resolved 3 },
                  { person := bobP, status := .resolved 5 }],
    average := meanBy [3, 5] }

/-- Claim C2: for a non-empty participant set, `Round.execute()` resolves
normally only when every issued per-participant request has resolved
(cancellation instead rejects the call, see `Round.executeOutcome`), and
the resolved `estimates` sequence has exactly one entry per participant
at round start. -/
theorem round_execute_barrier (ps : List Person) (resp : Person → Option ℚ)
    (r : RoundResult) (_hne : ps ≠ [])
    (h : Round.executeResult ps resp = some r) :
    (∀ p, p ∈ ps → (resp p).isSome = true) ∧ r.estimates.length = ps.length := by
  unfold Round.executeResult at h
  cases hc : collectResponses ps resp with
  | none => rw [hc] at h; cases h
  | some vs =>
    rw [hc] at h
    cases h
    refine ⟨collectResponses_resolved hc, ?_⟩
    simp [List.length_zip, collectResponses_length hc]

/-- Witness for C2 at the concrete round where alice estimates 3 and bob
estimates 5. -/
theorem round_execute_barrier_witness :
    (∀ p, p ∈ [aliceP, bobP] → (respAB p).isSome = true) ∧
      resultAB.estimates.length = [aliceP, bobP].length :=
  round_execute_barrier [aliceP, bobP] respAB resultAB (by decide) rfl

/-- A round that has already been finalized with the value 3. -/
def finalizedRound : Round :=
  { Round.new task1 with value := some 3, ended := true }

/-- Claim C3, counterexample: on a round whose `value` is already set (to
3), a second `finalize(5)` call returns normally — no error is signalled
— and silently overwrites the stored value with 5. -/
theorem round_finalize_double_counterexample :
    finalizedRound.value = some 3 ∧
      Round.finalize finalizedRound 5 =
        .ok { finalizedRound with value := some 5, ended := true } :=
  ⟨rfl, rfl⟩

/-- Claim C3 (amended): calling `Round.finalize(value)` on a round whose
`finalValue` is already set is silently accepted: it returns normally
and overwrites the stored value with the new one, signalling no error. -/
theorem round_finalize_double_overwrites (r : Round) (v w : ℚ)
    (_h : r.value = some w) :
    Round.finalize r v = .ok { r with value := some v, ended := true } := rfl

/-- Witness for the amended C3 theorem at the concrete already-finalized
round. -/
theorem round_finalize_double_overwrites_witness :
    Round.finalize finalizedRound 5 =
      .ok { finalizedRound with value := some 5, ended := true } :=
  round_finalize_double_overwrites finalizedRound 5 3 rfl

/-- A current round holding a single pending prompt, for alice only. -/
def voteRound : Round :=
  { Round.new task1 with
    prompts := [{ person := aliceP, status := .pending }],
    rejectInstalled := true }

/-- A planning session whose current round holds a pending prompt for
alice only; bob has no request at all. -/
def voteSession : Session :=
  { planning := true, completed := false, rounds := [], completedRounds := [],
    skippedRounds := [], currentRound := some voteRound, moderator := maudP }

/-- Claim C4, counterexample: bob has no outstanding request in the
active round (the round holds no request for him at all), yet
`Session.vote` fails with a `TypeError` (from `prompt.isPending()` on
`undefined`), not with the "Already voted!" rejection the claim
requires. -/
theorem session_vote_no_prompt_counterexample :
    Session.vote voteSession bobP 3 = .error .typeError ∧
      JsError.typeError ≠ .error "Already voted!" := by
  refine ⟨rfl, ?_⟩
  decide

/-- Claim C4 (amended): a participant whose request exists in the active
round but is no longer pending is rejected with "Already voted!"; a
participant for whom the round holds no request at all instead triggers
a `TypeError` (and with no running round the rejection is "There is not
task to vote on!"), so only the has-a-settled-request case produces the
"already voted" error. -/
theorem session_vote_already_voted (s : Session) (person : Person) (v : ℚ)
    (r : Round) (p : Prompt)
    (hp : s.planning = true) (hc : s.currentRound = some r)
    (hf : r.prompts.find? (fun q => q.person == person) = some p)
    (hpend : p.isPending = false) :
    Session.vote s person v = .error (.error "Already voted!") ∧
    (∀ s2 : Session, ∀ r2 : Round, s2.planning = true → s2.currentRound = some r2 →
      r2.prompts.find? (fun q => q.person == person) = none →
      Session.vote s2 person v = .error .typeError) := by
  constructor
  · simp [Session.vote, hp, hc, hf, hpend]
  · intro s2 r2 hp2 hc2 hf2
    simp [Session.vote, hp2, hc2, hf2]

/-- A round where alice's request has already resolved. -/
def votedRound : Round :=
  { Round.new task1 with
    prompts := [{ person := aliceP, status := .resolved 3 }],
    rejectInstalled := true }

/-- A planning session whose current round is `votedRound`. -/
def votedSession : Session :=
  { voteSession with currentRound := some votedRound }

/-- Witness for the amended C4 theorem: alice, who has already voted,
votes again and is rejected with "Already voted!". -/
theorem session_vote_already_voted_witness :
    Session.vote votedSession aliceP 4 = .error (.error "Already voted!") ∧
    (∀ s2 : Session, ∀ r2 : Round, s2.planning = true → s2.currentRound = some r2 →
      r2.prompts.find? (fun q => q.person == aliceP) = none →
      Session.vote s2 aliceP 4 = .error .typeError) :=
  session_vote_already_voted votedSession aliceP 4 votedRound
    { person := aliceP, status := .resolved 3 } rfl rfl (by decide) rfl

/-- A session that has already planned a tasklist (one pending round). -/
def plannedSession : Session :=
  { planning := false, completed := false, rounds := [Round.new task1],
    completedRounds := [], skippedRounds := [], currentRound := none,
    moderator := maudP }

/-- Claim C5: on every session whose pending round queue is non-empty or
whose planning flag is already set, `plan` rejects with the
lifecycle-state error regardless of the fetched tasklist contents, so
only one tasklist is ever planned per session. -/
theorem session_plan_rejects_when_planned (s : Session) (tasks : List Task)
    (h : s.rounds ≠ [] ∨ s.planning = true) :
    Session.plan s tasks =
      .error (.error "Cannot plan another tasklist when we're already planning!") := by
  have hcond : s.rounds.length ≠ 0 ∨ s.planning = true := by
    rcases h with h | h
    · exact Or.inl (by simpa using h)
    · exact Or.inr h
  unfold Session.plan
  rw [if_pos hcond]

/-- Witness for C5: the session that already planned task 1 rejects a
plan of further tasks. -/
theorem session_plan_rejects_when_planned_witness :
    Session.plan plannedSession [task2, task3] =
      .error (.error "Cannot plan another tasklist when we're already planning!") :=
  session_plan_rejects_when_planned plannedSession [task2, task3]
    (Or.inl (by decide))

/-- Claim C6: on a running round (rejection callback installed),
`cancelAllEstimates()` succeeds; the pending request set `prompts` is
cleared; the prompt objects go through `prompt.cancel()`, so every
previously-pending request reaches the cancelled state and none is left
pending; the in-flight `execute()` rejects with the distinguished
cancellation signal; and the `start` loop treats exactly that signal —
and no other rejection — as its continue-loop (non-fatal) condition. -/
theorem round_cancel_all_estimates_spec (r : Round) (ps : List Person)
    (resp : Person → Option ℚ) (h : r.rejectInstalled = true) :
    ∃ c : CancelEffects, r.cancelAllEstimates = .ok c ∧
      c.round.prompts = [] ∧
      c.cancelledPrompts = r.prompts.map Prompt.cancel ∧
      (∀ p, p ∈ r.prompts → p.isPending = true →
        { p with status := PromptStatus.cancelled } ∈ c.cancelledPrompts) ∧
      (∀ q, q ∈ c.cancelledPrompts → q.isPending = false) ∧
      Round.executeOutcome ps resp (some c.signal) = some (.error c.signal) ∧
      startLoopStep (.error c.signal) = .continueLoop ∧
      (∀ e, startLoopStep (.error e) = .continueLoop → ∃ m, e = .cancellation m) := by
  have hc : r.cancelAllEstimates = .ok
      { round := { r with rejectInstalled := false, prompts := [] },
        signal := .cancellation "Estimation cancelled.",
        cancelledPrompts := r.prompts.map Prompt.cancel } := by
    unfold Round.cancelAllEstimates
    rw [h]
    rfl
  refine ⟨_, hc, rfl, rfl, ?_, ?_, rfl, rfl, ?_⟩
  · intro p hp hpend
    exact List.mem_map.mpr ⟨p, hp, by simp [Prompt.cancel, hpend]⟩
  · intro q hq
    obtain ⟨p, hp, hcast⟩ := List.mem_map.mp hq
    subst hcast
    by_cases hb : p.isPending
    · rw [Prompt.cancel, if_pos hb]
      rfl
    · rw [Prompt.cancel, if_neg hb]
      simpa using hb
  · intro e he
    cases e with
    | typeError => simp [startLoopStep] at he
    | cancellation m => exact ⟨m, rfl⟩
    | error m => simp [startLoopStep] at he

/-- A running round mid-estimation: alice still pending, bob resolved. -/
def runningRound : Round :=
  { Round.new task1 with
    prompts := [{ person := aliceP, status := .pending },
                { person := bobP, status := .resolved 5 }],
    rejectInstalled := true }

/-- Witness for C6 at `runningRound`. -/
theorem round_cancel_all_estimates_spec_witness :
    ∃ c : CancelEffects, runningRound.cancelAllEstimates = .ok c ∧
      c.round.prompts = [] ∧
      c.cancelledPrompts = runningRound.prompts.map Prompt.cancel ∧
      (∀ p, p ∈ runningRound.prompts → p.isPending = true →
        { p with status := PromptStatus.cancelled } ∈ c.cancelledPrompts) ∧
      (∀ q, q ∈ c.cancelledPrompts → q.isPending = false) ∧
      Round.executeOutcome [aliceP, bobP] respAB (some c.signal) = some (.error c.signal) ∧
      startLoopStep (.error c.signal) = .continueLoop ∧
      (∀ e, startLoopStep (.error e) = .continueLoop → ∃ m, e = .cancellation m) :=
  round_cancel_all_estimates_spec runningRound [aliceP, bobP] respAB rfl

/-- Helper: when no queued round's outcome is a non-cancellation
rejection, the `start` loop calls `execute()` on every queued round, in
queue order. -/
theorem startLoopAttempts_all (queue : List Round)
    (exec : Round → Except JsError RoundResult)
    (h : ∀ q, q ∈ queue → (startLoopStep (exec q)).isFatal = false) :
    (startLoopAttempts queue exec).1 = queue := by
  induction queue with
  | nil => rfl
  | cons r rest ih =>
    have hr := h r (List.mem_cons_self r rest)
    have ht := ih (fun q hq => h q (List.mem_cons_of_mem r hq))
    cases hs : startLoopStep (exec r) with
    | fatal e => rw [hs] at hr; simp [StepAction.isFatal] at hr
    | completedRound res =>
      rw [startLoopAttempts, hs]
      simpa using ht
    | continueLoop =>
      rw [startLoopAttempts, hs]
      simpa using ht

/-- The round and effects left by cancelling `runningRound`. -/
def cancelledRunningRound : Round :=
  { runningRound with rejectInstalled := false, prompts := [] }

/-- The `CancelEffects` record produced by cancelling `runningRound`. -/
def runningCancelEffects : CancelEffects :=
  { round := cancelledRunningRound,
    signal := .cancellation "Estimation cancelled.",
    cancelledPrompts := [{ person := aliceP, status := .cancelled },
                         { person := bobP, status := .resolved 5 }] }

/-- A session actively executing `runningRound`, with one further round
still queued. -/
def activeSession : Session :=
  { planning := true, completed := false, rounds := [Round.new task2],
    completedRounds := [], skippedRounds := [],
    currentRound := some runningRound, moderator := maudP }

/-- Claim C7: `pass` with no active round rejects; on an active round it
cancels the round's outstanding requests and re-appends the cancelled
round to the tail of the pending queue; and since the `start` loop
shifts and executes every queued round in order (absent a fatal
rejection), the re-queued round is executed again when its turn comes
back around. -/
theorem session_pass_requeues (s : Session) (r : Round) (c : CancelEffects)
    (hp : s.planning = true) (hc : s.currentRound = some r)
    (hcancel : r.cancelAllEstimates = .ok c) :
    Session.pass s = .ok { s with currentRound := some c.round,
                                  rounds := s.rounds ++ [c.round] } ∧
    (s.rounds ++ [c.round]).getLast? = some c.round ∧
    (∀ s2 : Session, s2.planning = false →
      Session.pass s2 = .error (.error "There is no task to pass!")) ∧
    (∀ exec : Round → Except JsError RoundResult,
      (∀ q, q ∈ s.rounds ++ [c.round] → (startLoopStep (exec q)).isFatal = false) →
      c.round ∈ (startLoopAttempts (s.rounds ++ [c.round]) exec).1) := by
  refine ⟨?_, ?_, ?_, ?_⟩
  · simp [Session.pass, hp, hc, hcancel]
  · simp
  · intro s2 h2
    simp [Session.pass, h2]
  · intro exec hex
    rw [startLoopAttempts_all _ exec hex]
    simp

/-- The session state expected after passing `activeSession`'s running
round. -/
def passedSession : Session :=
  { activeSession with
    currentRound := some runningCancelEffects.round,
    rounds := activeSession.rounds ++ [runningCancelEffects.round] }

/-- Witness for C7: passing `activeSession`'s running round re-queues it
behind the already-queued task-2 round. -/
theorem session_pass_requeues_witness :
    Session.pass activeSession = .ok passedSession ∧
    (activeSession.rounds ++ [runningCancelEffects.round]).getLast? =
      some runningCancelEffects.round ∧
    (∀ s2 : Session, s2.planning = false →
      Session.pass s2 = .error (.error "There is no task to pass!")) ∧
    (∀ exec : Round → Except JsError RoundResult,
      (∀ q, q ∈ activeSession.rounds ++ [runningCancelEffects.round] →
        (startLoopStep (exec q)).isFatal = false) →
      runningCancelEffects.round ∈
        (startLoopAttempts (activeSession.rounds ++ [runningCancelEffects.round]) exec).1) :=
  session_pass_requeues activeSession runningRound runningCancelEffects rfl rfl rfl

/-- The current round of the status scenario: task 2, alice still
estimating. -/
def statusRound : Round :=
  { Round.new task2 with
    prompts := [{ person := aliceP, status := .pending }],
    rejectInstalled := true }

/-- A mid-planning session: one round completed, one running, one still
queued — three rounds in total. -/
def statusSession : Session :=
  { planning := true, completed := false, rounds := [Round.new task3],
    completedRounds := [finalizedRound], skippedRounds := [],
    currentRound := some statusRound, moderator := maudP }

/-- Claim C8, counterexample: with one completed, one running and one
queued round (three rounds in the session), `status` reports "1 of 1
tasks estimated" — the denominator is the length of the remaining
pending queue `this.rounds`, not the session's total round count of 3. -/
theorem session_status_total_counterexample :
    (Session.status statusSession).toOption.bind (fun ls => ls[1]?) =
        some ":white_check_mark: 1 of 1 tasks estimated." ∧
      statusSession.totalRounds = 3 ∧
      (":white_check_mark: 1 of 1 tasks estimated." ≠
        ":white_check_mark: 1 of 3 tasks estimated.") := by
  refine ⟨rfl, rfl, by decide⟩

/-- Claim C8 (amended): for every session state, `status` only reads
session state, and its output reports the moderator identity and the
completed-round count out of the number of rounds remaining in the
pending queue (not out of the session's total round count); when a
round is active it additionally reports the current item and the list
of participants still estimating in that round (the line listing them
appears exactly when that list has someone to list). -/
theorem session_status_reports (s : Session) :
    (s.planning = false →
      ∃ ls, Session.status s = .ok ls ∧
        lineModerator s ∈ ls ∧ lineCount s ∈ ls) ∧
    (∀ r, s.planning = true → s.currentRound = some r →
      ∃ ls, Session.status s = .ok ls ∧
        lineModerator s ∈ ls ∧ lineCount s ∈ ls ∧ lineTask r ∈ ls ∧
        (r.getEstimatingUsers.length ≠ 0 → lineEstimating r ∈ ls)) := by
  constructor
  · intro hp
    by_cases hcomp : s.completed = true
    · exact ⟨[lineModerator s, lineCount s, lineComplete],
        by simp [Session.status, hp, hcomp], by simp, by simp⟩
    · exact ⟨[lineModerator s, lineCount s],
        by simp [Session.status, hp, hcomp], by simp, by simp⟩
  · intro r hp hc
    by_cases hest : r.getEstimatingUsers.length = 0 <;> by_cases hcomp : s.completed = true
    · exact ⟨[lineModerator s, lineCount s, lineTask r, lineComplete],
        by simp [Session.status, hp, hc, hest, hcomp], by simp, by simp, by simp,
        fun hne => absurd hest hne⟩
    · exact ⟨[lineModerator s, lineCount s, lineTask r],
        by simp [Session.status, hp, hc, hest, hcomp], by simp, by simp, by simp,
        fun hne => absurd hest hne⟩
    · exact ⟨[lineModerator s, lineCount s, lineTask r, lineEstimating r, lineComplete],
        by simp [Session.status, hp, hc, hest, hcomp], by simp, by simp, by simp,
        fun _ => by simp⟩
    · exact ⟨[lineModerator s, lineCount s, lineTask r, lineEstimating r],
        by simp [Session.status, hp, hc, hest, hcomp], by simp, by simp, by simp,
        fun _ => by simp⟩

/-- The C8 theorem at the concrete mid-planning session: both the idle
clause and the active-round clause, instantiated. -/
theorem session_status_reports_witness :
    (statusSession.planning = false →
      ∃ ls, Session.status statusSession = .ok ls ∧
        lineModerator statusSession ∈ ls ∧ lineCount statusSession ∈ ls) ∧
    (∀ r, statusSession.planning = true → statusSession.currentRound = some r →
      ∃ ls, Session.status statusSession = .ok ls ∧
        lineModerator statusSession ∈ ls ∧ lineCount statusSession ∈ ls ∧
        lineTask r ∈ ls ∧
        (r.getEstimatingUsers.length ≠ 0 → lineEstimating r ∈ ls)) :=
  session_status_reports statusSession

/-- Claim C9: `cancelAllEstimates` is not re-callable. On a round whose
rejection callback is absent — never installed because `execute()` has
not run, or nulled by a previous call — it raises a `TypeError`; one
successful call leaves the callback nulled; hence `skip` followed by
`pass` on the same still-current round makes `pass` fail with a
`TypeError` rather than being cleanly rejected. -/
theorem cancel_all_estimates_not_recallable (r : Round) (c : CancelEffects)
    (s : Session) (hcancel : r.cancelAllEstimates = .ok c)
    (hp : s.planning = true) (hc : s.currentRound = some r) :
    (∀ r2 : Round, r2.rejectInstalled = false →
      r2.cancelAllEstimates = .error .typeError) ∧
    c.round.rejectInstalled = false ∧
    Session.skip s = .ok { s with currentRound := some c.round,
                                  skippedRounds := s.skippedRounds ++ [c.round] } ∧
    Session.pass { s with currentRound := some c.round,
                          skippedRounds := s.skippedRounds ++ [c.round] } =
      .error .typeError := by
  have hnone : ∀ r2 : Round, r2.rejectInstalled = false →
      r2.cancelAllEstimates = .error .typeError := by
    intro r2 h2
    unfold Round.cancelAllEstimates
    rw [h2]
    rfl
  have hcr : c.round.rejectInstalled = false := by
    unfold Round.cancelAllEstimates at hcancel
    by_cases hb : r.rejectInstalled
    · rw [if_pos hb] at hcancel
      cases hcancel
      rfl
    · rw [if_neg hb] at hcancel
      cases hcancel
  refine ⟨hnone, hcr, ?_, ?_⟩
  · simp [Session.skip, hp, hc, hcancel]
  · simp [Session.pass, hp, hnone c.round hcr]

/-- The session state after skipping `activeSession`'s running round. -/
def skippedSession : Session :=
  { activeSession with
    currentRound := some runningCancelEffects.round,
    skippedRounds := activeSession.skippedRounds ++ [runningCancelEffects.round] }

/-- Witness for C9: skip succeeds on the running round; an immediately
following pass on the same round fails with a `TypeError`. -/
theorem cancel_all_estimates_not_recallable_witness :
    (∀ r2 : Round, r2.rejectInstalled = false →
      r2.cancelAllEstimates = .error .typeError) ∧
    runningCancelEffects.round.rejectInstalled = false ∧
    Session.skip activeSession = .ok skippedSession ∧
    Session.pass skippedSession = .error .typeError :=
  cancel_all_estimates_not_recallable runningRound runningCancelEffects
    activeSession rfl rfl rfl

/-- Claim C10: the `add` command is accepted by the mention-recognition
pattern, but the `Session` class defines no `add` method, so the dynamic
`this[command]()` dispatch raises a `TypeError`; the mention handler's
catch turns it into an error reply to the user and the session state is
left untouched. -/
theorem session_add_command_unhandled :
    "add" ∈ mentionCommandNames ∧
    "add" ∉ sessionMethodNames ∧
    (∀ s : Session, Session.handleMentionStep s "add" = .errorReply .typeError s) := by
  refine ⟨by decide, by decide, fun s => rfl⟩

end PlanningPoker
